import Mathlib

/-!
Verification of the analytics aggregation pipeline of `analytics/reports/views.py`.

The three request handlers (`sales_analytics`, `inventory_analytics`,
`financial_analytics`) are embedded as pure functions from the fetched row
sets (the SQL layer and the HTTP layer are external collaborators) to the
response structure they build.  Money amounts are modelled as `ℚ`, stock
quantities and 30-day sold totals as `ℤ`, counts as `ℕ`, and calendar dates
as explicit year/month/day triples.  Pandas operations are embedded by their
documented semantics:

* `pd.merge(..., how='outer')` with the default `sort=False` emits the left
  frame's keys in their order of appearance followed by the right-only keys
  in their order of appearance (keys are factorized by first appearance over
  left-then-right);
* `fillna(0)` turns every missing numeric field of an unmatched row into `0`;
* `DataFrame.nlargest(n, col)` with the default `keep='first'` is the stable
  descending sort by `col` (mergesort on the negated column) truncated to
  `n` rows;
* `Series.cumsum` is the running sum in the row order of the frame;
* `strftime('%Y-%m-%d')` is zero-padded decimal formatting of the date.
-/

namespace Erp

/-- A calendar date as stored in a `DATE(created_at)` column. -/
structure Date where
  year : Nat
  month : Nat
  day : Nat
deriving DecidableEq

/-- A timestamp: a calendar date plus the time of day (in seconds).
`strftime` period keys only ever read the date part. -/
structure Timestamp where
  date : Date
  seconds : Nat
deriving DecidableEq

/-- A date lies in the ranges a SQL `DATE` column can hold (month 1–12,
day 1–31) and in the four-digit-year era that `%Y` zero-pads to. -/
def validDate (d : Date) : Prop :=
  1 ≤ d.month ∧ d.month ≤ 12 ∧ 1 ≤ d.day ∧ d.day ≤ 31 ∧ d.year ≤ 9999

instance (d : Date) : Decidable (validDate d) := by
  unfold validDate; infer_instance

/-- The character a single decimal digit prints as. -/
def digitChar (n : Nat) : Char := Char.ofNat (48 + n)

/-- Two-digit zero-padded decimal rendering (`%m`, `%d`, `%U`). -/
def pad2 (n : Nat) : List Char := [digitChar (n / 10), digitChar (n % 10)]

/-- Four-digit zero-padded decimal rendering (`%Y`). -/
def pad4 (n : Nat) : List Char := pad2 (n / 100) ++ pad2 (n % 100)

/-- `strftime('%Y-%m-%d')` on a date. -/
def fmtDay (d : Date) : String :=
  String.mk (pad4 d.year ++ '-' :: (pad2 d.month ++ '-' :: pad2 d.day))

/-- `strftime('%Y-%m')` on a date. -/
def fmtMonth (d : Date) : String :=
  String.mk (pad4 d.year ++ '-' :: pad2 d.month)

/-- Gregorian leap-year rule. -/
def isLeap (y : Nat) : Bool :=
  (y % 4 == 0 && y % 100 != 0) || y % 400 == 0

/-- Days in the months preceding month `m` (1-based). -/
def daysBeforeMonth (y m : Nat) : Nat :=
  let base := [0, 31, 59, 90, 120, 151, 181, 212, 243, 273, 304, 334].getD (m - 1) 0
  if 2 < m && isLeap y then base + 1 else base

/-- Zero-based day of the year (`tm_yday`). -/
def dayOfYear (d : Date) : Nat := daysBeforeMonth d.year d.month + (d.day - 1)

/-- Day of the week with Sunday = 0 (`tm_wday`), by Sakamoto's method. -/
def weekday (d : Date) : Nat :=
  let t := [0, 3, 2, 5, 0, 3, 5, 1, 4, 6, 2, 4]
  let y := if d.month < 3 then d.year - 1 else d.year
  (y + y / 4 - y / 100 + y / 400 + t.getD (d.month - 1) 0 + d.day) % 7

/-- `%U`: week of the year, the first Sunday starting week 1. -/
def weekOfYear (d : Date) : Nat :=
  (dayOfYear d + 7 - (weekday d + 7 - dayOfYear d % 7) % 7) / 7

/-- `strftime('%Y-W%U')` on a date. -/
def fmtWeek (d : Date) : String :=
  String.mk (pad4 d.year ++ '-' :: 'W' :: pad2 (weekOfYear d))

/-- The period-key dispatch of `sales_analytics` on the date part: week and
month get their own formats and every other `group_by` value falls through
to the day format. -/
def periodKeyD (group_by : String) (d : Date) : String :=
  if group_by = "week" then fmtWeek d
  else if group_by = "month" then fmtMonth d
  else fmtDay d

/-- The period key of a timestamp: `strftime` only reads the date part. -/
def periodKey (group_by : String) (t : Timestamp) : String :=
  periodKeyD group_by t.date

/-- The growth-rate formula of `sales_analytics`:
`((total_revenue - prev_revenue) / prev_revenue * 100) if prev_revenue > 0 else 0`. -/
def growth_rate (current previous : ℚ) : ℚ :=
  if 0 < previous then (current - previous) / previous * 100 else 0

/-- `period_days = (end_date - start_date).days` (timestamps in days). -/
def period_days (s e : ℤ) : ℤ := e - s

/-- `prev_start = start_date - timedelta(days=period_days)`. -/
def prev_start (s e : ℤ) : ℤ := s - period_days s e

/-- `prev_end = start_date`. -/
def prev_end (s : ℤ) : ℤ := s

/-- The current-period SQL filter: `created_at >= start AND created_at <= end`. -/
def inCurrentWindow (s e t : ℤ) : Prop := s ≤ t ∧ t ≤ e

/-- The previous-period SQL filter: `created_at >= prev_start AND created_at < prev_end`. -/
def inPrevWindow (s e t : ℤ) : Prop := prev_start s e ≤ t ∧ t < prev_end s

/-- A chart: a title, the x labels and one data series per trace, as handed
to the plotting layer. -/
structure Chart where
  title : String
  x : List String
  series : List (String × List ℚ)
deriving DecidableEq

/-- A row of the grouped sales query (one per date × salesperson × payment
method). -/
structure SalesRow where
  sale_date : Date
  transaction_count : Nat
  total_revenue : ℚ
  subtotal : ℚ
  tax_amount : ℚ
  avg_transaction_value : ℚ
  unique_customers : Nat
  salesperson : String
  payment_method : String
deriving DecidableEq

/-- The response body built by `sales_analytics`. -/
structure SalesResponse where
  total_revenue : ℚ
  total_transactions : Nat
  avg_transaction_value : ℚ
  growth_rate : ℚ
  charts : List (String × Chart)
  top_performers : List (ℚ × Nat)
  payment_methods : List (String × ℚ)
deriving DecidableEq

/-- The mean of a column, as `Series.mean`: sum over length. -/
def listMean (xs : List ℚ) : ℚ := xs.sum / xs.length

/-- String order used for pandas `groupby` keys (`sort=True` sorts the group
keys ascending). -/
def strLe (a b : String) : Bool := !decide (b < a)

/-- The distinct keys of a keyed list, sorted ascending as `groupby` emits
them. -/
def groupKeys (l : List (String × ℚ)) : List String :=
  List.insertionSort (fun a b => strLe a b = true) (l.map Prod.fst).eraseDups

/-- `groupby(key)[col].sum()`: per distinct key, the sum of the values
carrying that key. -/
def groupSums (l : List (String × ℚ)) : List (String × ℚ) :=
  (groupKeys l).map (fun k => (k, ((l.filter (fun p => p.1 = k)).map Prod.snd).sum))

/-- Per-period sums of revenue, transactions and customers
(`df.groupby('period').agg(...)`). -/
def periodStats (group_by : String) (rows : List SalesRow) :
    List (String × ℚ × Nat × Nat) :=
  let keyed := rows.map (fun r => (periodKeyD group_by r.sale_date, r))
  (groupKeys (keyed.map (fun p => (p.1, (0 : ℚ))))).map (fun k =>
    let grp := (keyed.filter (fun p => p.1 = k)).map Prod.snd
    (k, (grp.map (·.total_revenue)).sum,
        (grp.map (·.transaction_count)).sum,
        (grp.map (·.unique_customers)).sum))

/-- Per-salesperson revenue and transaction sums, sorted descending by
revenue, top 10 (`groupby('salesperson').agg(...).sort_values(...).head(10)`;
`to_dict('records')` drops the index, so only the two sums survive). -/
def topPerformers (rows : List SalesRow) : List (ℚ × Nat) :=
  let keyed := rows.map (fun r => (r.salesperson, r))
  let grouped := (groupKeys (keyed.map (fun p => (p.1, (0 : ℚ))))).map (fun k =>
    let grp := (keyed.filter (fun p => p.1 = k)).map Prod.snd
    ((grp.map (·.total_revenue)).sum, (grp.map (·.transaction_count)).sum))
  (List.insertionSort (fun a b : ℚ × Nat => b.1 ≤ a.1) grouped).take 10

/-- `sales_analytics`, from the fetched grouped rows, the previous-period
revenue sum (the scalar the second query returns, `None` when no rows
matched) and the `group_by` request parameter. -/
def sales_analytics (rows : List SalesRow) (prevSum : Option ℚ)
    (group_by : String) : SalesResponse :=
  if rows.isEmpty then
    { total_revenue := 0, total_transactions := 0, avg_transaction_value := 0,
      growth_rate := 0, charts := [], top_performers := [], payment_methods := [] }
  else
    let total_revenue := (rows.map (·.total_revenue)).sum
    let total_transactions := (rows.map (·.transaction_count)).sum
    let avg_transaction_value := listMean (rows.map (·.avg_transaction_value))
    let prev_revenue : ℚ := match prevSum with
      | none => 0
      | some v => if v = 0 then 0 else v
    let stats := periodStats group_by rows
    { total_revenue := total_revenue,
      total_transactions := total_transactions,
      avg_transaction_value := avg_transaction_value,
      growth_rate := growth_rate total_revenue prev_revenue,
      charts :=
        [("revenue_trend",
          { title := "Revenue Trend", x := stats.map Prod.fst,
            series := [("Revenue", stats.map (fun s => s.2.1))] }),
         ("transaction_count",
          { title := "Transaction Count", x := stats.map Prod.fst,
            series := [("Transactions", stats.map (fun s => (s.2.2.1 : ℚ)))] })],
      top_performers := topPerformers rows,
      payment_methods := groupSums (rows.map (fun r => (r.payment_method, r.total_revenue))) }

/-- A row of the inventory overview query (one per active product). -/
structure StockRow where
  id : Nat
  name : String
  sku : String
  current_stock : ℤ
  min_stock : ℤ
  max_stock : ℤ
  price : ℚ
  cost : ℚ
  category_name : String
  supplier_name : String
  total_sold : ℤ
  total_purchased : ℤ
deriving DecidableEq

/-- The response body built by `inventory_analytics`. -/
structure InventoryResponse where
  total_products : Nat
  low_stock_items : List StockRow
  out_of_stock_items : List StockRow
  top_selling_products : List (String × ℤ)
  inventory_value : ℚ
  turnover_ratio : ℚ
  charts : List (String × Chart)
deriving DecidableEq

/-- `df[df['current_stock'] <= df['min_stock']]`. -/
def low_stock_items (rows : List StockRow) : List StockRow :=
  rows.filter (fun r => r.current_stock ≤ r.min_stock)

/-- `df[df['current_stock'] == 0]`. -/
def out_of_stock_items (rows : List StockRow) : List StockRow :=
  rows.filter (fun r => r.current_stock = 0)

/-- Descending order on the 30-day sold total, the sort key of `nlargest`. -/
def soldGE (a b : StockRow) : Prop := b.total_sold ≤ a.total_sold

instance : DecidableRel soldGE := fun a b =>
  inferInstanceAs (Decidable (b.total_sold ≤ a.total_sold))

instance : IsTotal StockRow soldGE :=
  ⟨fun a b => le_total b.total_sold a.total_sold⟩

instance : IsTrans StockRow soldGE :=
  ⟨fun _ _ _ h1 h2 => le_trans h2 h1⟩

/-- The stable descending sort underlying `nlargest(_, 'total_sold')`
(pandas uses a stable mergesort on the negated column with `keep='first'`;
a stable sort for a fixed total order is unique, so insertion sort embeds it). -/
def sortDesc (rows : List StockRow) : List StockRow :=
  List.insertionSort soldGE rows

/-- `df.nlargest(10, 'total_sold')[['name', 'total_sold']].to_dict('records')`. -/
def top_selling_products (rows : List StockRow) : List (String × ℤ) :=
  ((sortDesc rows).take 10).map (fun r => (r.name, r.total_sold))

/-- `df['current_stock'].mean()`. -/
def avgStock (rows : List StockRow) : ℚ :=
  ((rows.map (fun r => (r.current_stock : ℚ))).sum) / rows.length

/-- `df['total_sold'].sum()`. -/
def totalSoldSum (rows : List StockRow) : ℤ :=
  (rows.map (·.total_sold)).sum

/-- `float(total_sold / avg_inventory) if avg_inventory > 0 else 0`. -/
def turnover_ratio (rows : List StockRow) : ℚ :=
  if 0 < avgStock rows then (totalSoldSum rows : ℚ) / avgStock rows else 0

/-- The `Normal` count of the inventory-status chart:
`total_products - len(low_stock_items) - len(out_of_stock_items)`
(Python `int` subtraction, hence `ℤ`). -/
def normalCount (rows : List StockRow) : ℤ :=
  (rows.length : ℤ) - (low_stock_items rows).length - (out_of_stock_items rows).length

/-- Modelled from the spec: the normal count as the size of the complement of
the union of the low-stock and out-of-stock sets (the spec's set-complement
definition, stated for comparison with `normalCount`). -/
def specNormalCount (rows : List StockRow) : ℕ :=
  (rows.filter (fun r => ¬(r.current_stock ≤ r.min_stock ∨ r.current_stock = 0))).length

/-- `inventory_analytics`, from the fetched product rows. -/
def inventory_analytics (rows : List StockRow) : InventoryResponse :=
  if rows.isEmpty then
    { total_products := 0, low_stock_items := [], out_of_stock_items := [],
      top_selling_products := [], inventory_value := 0, turnover_ratio := 0,
      charts := [] }
  else
    let low := low_stock_items rows
    let oos := out_of_stock_items rows
    let category_stock := groupSums (rows.map (fun r => (r.category_name, (r.current_stock : ℚ))))
    { total_products := rows.length,
      low_stock_items := low,
      out_of_stock_items := oos,
      top_selling_products := top_selling_products rows,
      inventory_value := (rows.map (fun r => (r.current_stock : ℚ) * r.cost)).sum,
      turnover_ratio := turnover_ratio rows,
      charts :=
        [("category_distribution",
          { title := "Stock Distribution by Category",
            x := category_stock.map Prod.fst,
            series := [("current_stock", category_stock.map Prod.snd)] }),
         ("inventory_status",
          { title := "Inventory Status Overview",
            x := ["Low Stock", "Out of Stock", "Normal"],
            series := [("Count",
              [(low.length : ℚ), (oos.length : ℚ), (normalCount rows : ℚ)])] })] }

/-- A row of the grouped sales-revenue query (one per date, dates are
distinct and ascending by the `GROUP BY`/`ORDER BY`). -/
structure RevRow where
  date : Date
  revenue : ℚ
  subtotal : ℚ
  tax : ℚ
deriving DecidableEq

/-- A row of the grouped purchase-costs query (one per date). -/
structure CostRow where
  date : Date
  costs : ℚ
deriving DecidableEq

/-- A row of the merged financial frame after `fillna(0)`. -/
structure FinRow where
  date : Date
  revenue : ℚ
  subtotal : ℚ
  tax : ℚ
  costs : ℚ
deriving DecidableEq

/-- A merged row extended with the derived `profit` and `cash_flow` columns. -/
structure FinRowP where
  date : Date
  revenue : ℚ
  costs : ℚ
  profit : ℚ
  cash_flow : ℚ
deriving DecidableEq

/-- The response body built by `financial_analytics`. -/
structure FinancialResponse where
  total_revenue : ℚ
  total_costs : ℚ
  gross_profit : ℚ
  profit_margin : ℚ
  cash_flow : List (Date × ℚ)
  charts : List (String × Chart)
deriving DecidableEq

/-- The cost matched to a date by the join, `0` when unmatched (`fillna(0)`). -/
def costAt (d : Date) (rs : List CostRow) : ℚ :=
  match rs.find? (fun c => c.date = d) with
  | some c => c.costs
  | none => 0

/-- `pd.merge(sales_df, purchase_df, on='date', how='outer').fillna(0)` with
the default `sort=False`: the left keys in their order of appearance, each
paired with its matching cost, followed by the right-only keys in their
order of appearance with the revenue columns zero-filled. -/
def mergeOuter (ls : List RevRow) (rs : List CostRow) : List FinRow :=
  ls.map (fun l =>
    { date := l.date, revenue := l.revenue, subtotal := l.subtotal,
      tax := l.tax, costs := costAt l.date rs }) ++
  ((rs.filter (fun c => !ls.any (fun l => l.date = c.date))).map (fun c =>
    { date := c.date, revenue := 0, subtotal := 0, tax := 0, costs := c.costs }))

/-- The branch ladder that builds `financial_df`: outer merge when both
frames have rows, otherwise the non-empty frame with the other side's
columns synthesized as zeros. -/
def financialMerged (ls : List RevRow) (rs : List CostRow) : List FinRow :=
  if !ls.isEmpty && !rs.isEmpty then mergeOuter ls rs
  else if !ls.isEmpty then
    ls.map (fun l =>
      { date := l.date, revenue := l.revenue, subtotal := l.subtotal,
        tax := l.tax, costs := 0 })
  else
    rs.map (fun c =>
      { date := c.date, revenue := 0, subtotal := 0, tax := 0, costs := c.costs })

/-- `financial_df['profit'] = revenue - costs` and
`financial_df['cash_flow'] = financial_df['profit'].cumsum()`: the running
sum is taken in the row order of the frame. -/
def withCum (acc : ℚ) : List FinRow → List FinRowP
  | [] => []
  | r :: rest =>
    let p := r.revenue - r.costs
    { date := r.date, revenue := r.revenue, costs := r.costs,
      profit := p, cash_flow := acc + p } :: withCum (acc + p) rest

/-- The merged financial frame with its derived columns. -/
def financialSeries (ls : List RevRow) (rs : List CostRow) : List FinRowP :=
  withCum 0 (financialMerged ls rs)

/-- Strict lexicographic order on dates. -/
def dateLt (a b : Date) : Bool :=
  a.year < b.year ∨ (a.year = b.year ∧
    (a.month < b.month ∨ (a.month = b.month ∧ a.day < b.day)))

/-- `financial_analytics`, from the two fetched row sets. -/
def financial_analytics (ls : List RevRow) (rs : List CostRow) : FinancialResponse :=
  if ls.isEmpty && rs.isEmpty then
    { total_revenue := 0, total_costs := 0, gross_profit := 0,
      profit_margin := 0, cash_flow := [], charts := [] }
  else
    let series := financialSeries ls rs
    let total_revenue := (series.map (·.revenue)).sum
    let total_costs := (series.map (·.costs)).sum
    let gross := total_revenue - total_costs
    { total_revenue := total_revenue,
      total_costs := total_costs,
      gross_profit := gross,
      profit_margin := if 0 < total_revenue then gross / total_revenue * 100 else 0,
      cash_flow := series.map (fun p => (p.date, p.cash_flow)),
      charts :=
        [("cash_flow",
          { title := "Cash Flow Trend", x := series.map (fun p => fmtDay p.date),
            series := [("Cumulative Cash Flow", series.map (·.cash_flow))] }),
         ("revenue_costs",
          { title := "Revenue vs Costs", x := series.map (fun p => fmtDay p.date),
            series := [("Revenue", series.map (·.revenue)),
                       ("Costs", series.map (·.costs))] })] }

/-! Concrete inputs used to check the statements on real data. -/

/-- A product with zero stock (out of stock and, with `min_stock = 5`, low). -/
def oosRow : StockRow :=
  { id := 1, name := "p1", sku := "k1", current_stock := 0, min_stock := 5,
    max_stock := 20, price := 10, cost := 4, category_name := "cat",
    supplier_name := "sup", total_sold := 8, total_purchased := 0 }

/-- A low-stock (but not out-of-stock) product. -/
def lowRow (i : Nat) : StockRow :=
  { id := i, name := "p", sku := "k", current_stock := 2, min_stock := 5,
    max_stock := 20, price := 10, cost := 4, category_name := "cat",
    supplier_name := "sup", total_sold := 3, total_purchased := 0 }

/-- A normally stocked product. -/
def normalRow (i : Nat) : StockRow :=
  { id := i, name := "q", sku := "k", current_stock := 10, min_stock := 2,
    max_stock := 20, price := 10, cost := 4, category_name := "cat",
    supplier_name := "sup", total_sold := 1, total_purchased := 0 }

/-- Ten products: three low on stock, one of those out of stock. -/
def invRows : List StockRow :=
  [oosRow, lowRow 2, lowRow 3, normalRow 4, normalRow 5, normalRow 6,
   normalRow 7, normalRow 8, normalRow 9, normalRow 10]

/-- Revenue rows on 2024-01-01 and 2024-01-03 (each query is date-grouped
and date-ordered). -/
def exRev : List RevRow :=
  [{ date := ⟨2024, 1, 1⟩, revenue := 100, subtotal := 90, tax := 10 },
   { date := ⟨2024, 1, 3⟩, revenue := 50, subtotal := 45, tax := 5 }]

/-- A cost row on 2024-01-02 only. -/
def exCost : List CostRow :=
  [{ date := ⟨2024, 1, 2⟩, costs := 40 }]

/-- The spec's merge example: revenue only on 2024-01-01. -/
def exRevOne : List RevRow :=
  [{ date := ⟨2024, 1, 1⟩, revenue := 100, subtotal := 100, tax := 0 }]

/-- Whether a date list is strictly ascending. -/
def datesAscending : List Date → Bool
  | [] => true
  | [_] => true
  | a :: b :: rest => dateLt a b && datesAscending (b :: rest)

/-! ### Theorems -/

/-- C3: the growth rate is `(current - previous) / previous * 100` whenever
the previous total is positive and exactly `0` whenever it is not, and
`growth_rate 150 100 = 50`. -/
theorem growth_rate_spec :
    (∀ c p : ℚ, (0 < p → growth_rate c p = (c - p) / p * 100) ∧
      (p ≤ 0 → growth_rate c p = 0)) ∧
    growth_rate 150 100 = 50 := by
  refine ⟨fun c p => ⟨fun h => ?_, fun h => ?_⟩, by norm_num [growth_rate]⟩
  · rw [growth_rate, if_pos h]
  · rw [growth_rate, if_neg (not_lt.mpr h)]

/-- Witness for C3 at concrete inputs: a positive baseline of 100 against a
current total of 150, and a zero baseline. -/
theorem growth_rate_spec_witness :
    growth_rate 150 100 = 50 ∧ growth_rate 7 0 = 0 :=
  ⟨growth_rate_spec.2, (growth_rate_spec.1 7 0).2 le_rfl⟩

/-- C4: the previous-period query window is the half-open interval of the
current window's length ending exactly at `start_date`, and it never
overlaps the current window. -/
theorem prev_window_spec :
    ∀ s e t : ℤ,
      (inPrevWindow s e t ↔ s - (e - s) ≤ t ∧ t < s) ∧
      ¬(inPrevWindow s e t ∧ inCurrentWindow s e t) := by
  intro s e t
  refine ⟨Iff.rfl, ?_⟩
  rintro ⟨⟨_, hlt⟩, hge, _⟩
  exact absurd hge (not_le.mpr hlt)

/-- Witness for C4 on the concrete window `[10, 20]`: day 5 lies in the
previous window `[0, 10)` and day 12 cannot lie in both windows. -/
theorem prev_window_spec_witness :
    inPrevWindow 10 20 5 ∧
    ¬(inPrevWindow 10 20 12 ∧ inCurrentWindow 10 20 12) :=
  ⟨(prev_window_spec 10 20 5).1.mpr (by decide), (prev_window_spec 10 20 12).2⟩

/-- C6: on an empty fetched row set each endpoint returns the documented
zeroed/empty response shape. -/
theorem empty_rows_zero_shape :
    (∀ prevSum group_by, sales_analytics [] prevSum group_by =
      { total_revenue := 0, total_transactions := 0, avg_transaction_value := 0,
        growth_rate := 0, charts := [], top_performers := [],
        payment_methods := [] }) ∧
    inventory_analytics [] =
      { total_products := 0, low_stock_items := [], out_of_stock_items := [],
        top_selling_products := [], inventory_value := 0, turnover_ratio := 0,
        charts := [] } ∧
    financial_analytics [] [] =
      { total_revenue := 0, total_costs := 0, gross_profit := 0,
        profit_margin := 0, cash_flow := [], charts := [] } :=
  ⟨fun _ _ => rfl, rfl, rfl⟩

/-- C7: for a non-empty row set the turnover ratio is the 30-day sold total
over the mean current stock when that mean is positive, and exactly `0`
when the mean is not positive (the division is guarded, never taken with a
non-positive divisor). -/
theorem turnover_ratio_spec :
    ∀ rows : List StockRow, rows ≠ [] →
      (0 < avgStock rows →
        turnover_ratio rows = (totalSoldSum rows : ℚ) / avgStock rows) ∧
      (avgStock rows ≤ 0 → turnover_ratio rows = 0) := by
  intro rows _
  refine ⟨fun h => ?_, fun h => ?_⟩
  · rw [turnover_ratio, if_pos h]
  · rw [turnover_ratio, if_neg (not_lt.mpr h)]

/-- Witness for C7: a single all-zero-stock row has mean stock `0`, so the
ratio is `0` rather than a division by zero. -/
theorem turnover_ratio_spec_witness :
    turnover_ratio [oosRow] = 0 :=
  (turnover_ratio_spec [oosRow] (by decide)).2 (by norm_num [avgStock, oosRow])

/-- C10: when every row has a non-negative minimum stock, every row of the
out-of-stock list also appears in the low-stock list. -/
theorem out_of_stock_subset_low :
    ∀ rows : List StockRow, (∀ r ∈ rows, 0 ≤ r.min_stock) →
      ∀ r ∈ out_of_stock_items rows, r ∈ low_stock_items rows := by
  intro rows h r hr
  rw [out_of_stock_items, List.mem_filter, decide_eq_true_eq] at hr
  rw [low_stock_items, List.mem_filter, decide_eq_true_eq]
  have hm := h r hr.1
  have hz := hr.2
  exact ⟨hr.1, by omega⟩

/-- Witness for C10: the out-of-stock product among the ten sample rows is
in the low-stock list. -/
theorem out_of_stock_subset_low_witness :
    oosRow ∈ low_stock_items invRows :=
  out_of_stock_subset_low invRows (by decide) oosRow (by decide)

/-- C1 fails on the code: on ten products of which three are low on stock
and one of those is out of stock, the inventory-status chart reports a
`Normal` count of `10 - 3 - 1 = 6`, while the number of products outside
the union of the low and out-of-stock sets is `7` (the out-of-stock row is
subtracted twice). -/
theorem inventory_normal_undercount :
    normalCount invRows = 6 ∧ specNormalCount invRows = 7 ∧
    (low_stock_items invRows).length = 3 ∧
    (out_of_stock_items invRows).length = 1 ∧
    invRows.length = 10 ∧
    (inventory_analytics invRows).charts.lookup "inventory_status" =
      some { title := "Inventory Status Overview",
             x := ["Low Stock", "Out of Stock", "Normal"],
             series := [("Count", [3, 1, 6])] } := by
  refine ⟨by decide, by decide, by decide, by decide, by decide, ?_⟩
  have hlow : ((low_stock_items invRows).length : ℚ) = 3 := by norm_num [show (low_stock_items invRows).length = 3 from by decide]
  have hoos : ((out_of_stock_items invRows).length : ℚ) = 1 := by norm_num [show (out_of_stock_items invRows).length = 1 from by decide]
  have hn : ((normalCount invRows : ℚ)) = 6 := by norm_num [show normalCount invRows = 6 from by decide]
  simp [inventory_analytics, List.lookup, hlow, hoos, hn]

/-- C2 fails on the code: the outer merge emits the revenue dates first and
appends the cost-only date 2024-01-02 after 2024-01-03, and the running sum
is taken in that unsorted row order, so the cumulative value on 2024-01-03
is `150` instead of the date-ordered `110`. -/
theorem financial_series_unsorted :
    ((financialSeries exRev exCost).map (·.date)) =
      [⟨2024, 1, 1⟩, ⟨2024, 1, 3⟩, ⟨2024, 1, 2⟩] ∧
    datesAscending ((financialSeries exRev exCost).map (·.date)) = false ∧
    ((financialSeries exRev exCost).map (·.cash_flow)) = [100, 150, 110] := by
  refine ⟨by decide, by decide, ?_⟩
  simp only [financialSeries, financialMerged, mergeOuter, exRev, exCost, costAt,
    withCum, List.find?, List.map, List.filter, List.append, List.any, List.isEmpty]
  norm_num

/-- A date that matches no cost row is zero-filled by the join. -/
theorem costAt_eq_zero {d : Date} {rs : List CostRow}
    (h : d ∉ rs.map CostRow.date) : costAt d rs = 0 := by
  rw [costAt]
  cases hf : rs.find? (fun c => c.date = d) with
  | none => rfl
  | some c =>
    exfalso
    have hc := List.mem_of_find?_eq_some hf
    have heq := List.find?_some hf
    simp only [decide_eq_true_eq] at heq
    exact h (heq ▸ List.mem_map_of_mem CostRow.date hc)

/-- Every row of the derived frame has `profit = revenue - costs`. -/
theorem withCum_profit :
    ∀ (acc : ℚ) (l : List FinRow), ∀ p ∈ withCum acc l,
      p.profit = p.revenue - p.costs := by
  intro acc l
  induction l generalizing acc with
  | nil => intro p hp; simp [withCum] at hp
  | cons r rest ih =>
    intro p hp
    rw [withCum] at hp
    rcases List.mem_cons.mp hp with h | h
    · subst h; rfl
    · exact ih _ p h

/-- C5: the financial merge is a zero-filling full outer join on the date
key — every merged row's date comes from one of the two series, a date
absent from the cost (resp. revenue) series gets costs (resp. revenue) `0`,
`profit = revenue - costs` on every row — and on revenue `{2024-01-01: 100}`
against costs `{2024-01-02: 40}` the merged series is exactly the two
claimed rows. -/
theorem financial_merge_spec :
    (∀ (ls : List RevRow) (rs : List CostRow), ∀ r ∈ financialMerged ls rs,
      (r.date ∈ ls.map RevRow.date ∨ r.date ∈ rs.map CostRow.date) ∧
      (r.date ∉ rs.map CostRow.date → r.costs = 0) ∧
      (r.date ∉ ls.map RevRow.date → r.revenue = 0)) ∧
    (∀ (ls : List RevRow) (rs : List CostRow), ∀ p ∈ financialSeries ls rs,
      p.profit = p.revenue - p.costs) ∧
    financialSeries exRevOne exCost =
      [{ date := ⟨2024, 1, 1⟩, revenue := 100, costs := 0,
         profit := 100, cash_flow := 100 },
       { date := ⟨2024, 1, 2⟩, revenue := 0, costs := 40,
         profit := -40, cash_flow := 60 }] := by
  refine ⟨?_, fun ls rs => withCum_profit 0 (financialMerged ls rs), ?_⟩
  · intro ls rs r hr
    rw [financialMerged] at hr
    split_ifs at hr with h1 h2
    · rcases List.mem_append.mp hr with h | h
      · obtain ⟨l, hl, rfl⟩ := List.mem_map.mp h
        exact ⟨Or.inl (List.mem_map_of_mem RevRow.date hl),
          fun hn => costAt_eq_zero hn,
          fun hn => absurd (List.mem_map_of_mem RevRow.date hl) hn⟩
      · obtain ⟨c, hc, rfl⟩ := List.mem_map.mp h
        have hcrs : c ∈ rs := (List.mem_filter.mp hc).1
        exact ⟨Or.inr (List.mem_map_of_mem CostRow.date hcrs),
          fun hn => absurd (List.mem_map_of_mem CostRow.date hcrs) hn,
          fun _ => rfl⟩
    · obtain ⟨l, hl, rfl⟩ := List.mem_map.mp hr
      exact ⟨Or.inl (List.mem_map_of_mem RevRow.date hl),
        fun _ => rfl,
        fun hn => absurd (List.mem_map_of_mem RevRow.date hl) hn⟩
    · obtain ⟨c, hc, rfl⟩ := List.mem_map.mp hr
      exact ⟨Or.inr (List.mem_map_of_mem CostRow.date hc),
        fun hn => absurd (List.mem_map_of_mem CostRow.date hc) hn,
        fun _ => rfl⟩
  · simp only [financialSeries, financialMerged, mergeOuter, exRevOne, exCost,
      costAt, withCum, List.find?, List.map, List.filter, List.append,
      List.any, List.isEmpty]
    norm_num

/-- Witness for C5: the cost-only date 2024-01-02 of the example gets its
revenue zero-filled, by the theorem applied to that merged row. -/
theorem financial_merge_spec_witness :
    ({ date := ⟨2024, 1, 2⟩, revenue := 0, subtotal := 0, tax := 0,
       costs := 40 } : FinRow).revenue = 0 :=
  (financial_merge_spec.1 exRevOne exCost _
    (by simp [financialMerged, mergeOuter, exRevOne, exCost, costAt,
      List.find?, List.isEmpty])).2.2
    (by decide)

/-- Inserting a row into a list leaves the subsequence of rows carrying any
fixed `total_sold` value intact, apart from the inserted row landing in
front of it when it carries that value (stability of the insertion step). -/
theorem filter_orderedInsert (v : ℤ) (a : StockRow) :
    ∀ l : List StockRow,
      (List.orderedInsert soldGE a l).filter (fun r => r.total_sold = v) =
        if a.total_sold = v then
          a :: l.filter (fun r => r.total_sold = v)
        else l.filter (fun r => r.total_sold = v) := by
  intro l
  induction l with
  | nil =>
    by_cases hv : a.total_sold = v <;>
      simp [List.orderedInsert, List.filter, hv]
  | cons b bs ih =>
    rw [List.orderedInsert]
    by_cases hab : soldGE a b
    · rw [if_pos hab]
      by_cases hv : a.total_sold = v
      · simp [List.filter, hv]
      · simp [List.filter, hv]
    · rw [if_neg hab]
      have hlt : a.total_sold < b.total_sold := by
        rw [soldGE] at hab; omega
      by_cases hv : a.total_sold = v
      · have hbv : ¬ b.total_sold = v := by omega
        simp [List.filter, hv, hbv, ih]
      · by_cases hbv : b.total_sold = v
        · simp [List.filter, hv, hbv, ih]
        · simp [List.filter, hv, hbv, ih]

/-- The stable descending sort preserves, for every `total_sold` value, the
original relative order of the rows carrying it. -/
theorem sortDesc_filter (v : ℤ) :
    ∀ rows : List StockRow,
      (sortDesc rows).filter (fun r => r.total_sold = v) =
        rows.filter (fun r => r.total_sold = v) := by
  intro rows
  induction rows with
  | nil => rfl
  | cons b bs ih =>
    rw [sortDesc, List.insertionSort, filter_orderedInsert]
    by_cases hv : b.total_sold = v
    · rw [if_pos hv]
      rw [sortDesc] at ih
      simp [List.filter, hv, ih]
    · rw [if_neg hv]
      rw [sortDesc] at ih
      simp [List.filter, hv, ih]

/-- C9: the top-selling list is the stable descending sort of the rows by
30-day sold total, truncated to 10: the sorted list is descending, is a
permutation of the input, keeps rows tied on `total_sold` in their input
order, and at most 10 entries survive the truncation. -/
theorem top_selling_spec :
    ∀ rows : List StockRow,
      top_selling_products rows =
        ((sortDesc rows).take 10).map (fun r => (r.name, r.total_sold)) ∧
      (sortDesc rows).Pairwise soldGE ∧
      ((sortDesc rows).take 10).Pairwise soldGE ∧
      (sortDesc rows).Perm rows ∧
      (∀ v : ℤ, (sortDesc rows).filter (fun r => r.total_sold = v) =
        rows.filter (fun r => r.total_sold = v)) ∧
      (top_selling_products rows).length ≤ 10 := by
  intro rows
  have hs : (sortDesc rows).Pairwise soldGE :=
    List.sorted_insertionSort soldGE rows
  refine ⟨rfl, hs, hs.sublist (List.take_sublist 10 _), ?_, ?_, ?_⟩
  · exact List.perm_insertionSort soldGE rows
  · exact fun v => sortDesc_filter v rows
  · rw [top_selling_products, List.length_map, List.length_take]
    exact min_le_left _ _

/-- Decimal digits print as distinct characters. -/
theorem digitChar_injOn :
    ∀ a, a < 10 → ∀ b, b < 10 → digitChar a = digitChar b → a = b := by
  decide

/-- Two-digit zero-padded rendering is injective below 100. -/
theorem pad2_injOn {a b : Nat} (ha : a < 100) (hb : b < 100)
    (h : pad2 a = pad2 b) : a = b := by
  simp only [pad2, List.cons.injEq, and_true] at h
  obtain ⟨h1, h2⟩ := h
  have e1 := digitChar_injOn (a / 10) (by omega) (b / 10) (by omega) h1
  have e2 := digitChar_injOn (a % 10) (by omega) (b % 10) (by omega) h2
  omega

/-- Four-digit zero-padded rendering is injective below 10000. -/
theorem pad4_injOn {a b : Nat} (ha : a < 10000) (hb : b < 10000)
    (h : pad4 a = pad4 b) : a = b := by
  rw [pad4, pad4] at h
  obtain ⟨h1, h2⟩ :=
    List.append_inj h (rfl : (pad2 (a / 100)).length = (pad2 (b / 100)).length)
  have e1 := pad2_injOn (by omega) (by omega) h1
  have e2 := pad2_injOn (by omega) (by omega) h2
  omega

/-- The `%Y-%m-%d` key determines the date on valid dates. -/
theorem fmtDay_injOn {d1 d2 : Date} (h1 : validDate d1) (h2 : validDate d2)
    (h : fmtDay d1 = fmtDay d2) : d1 = d2 := by
  obtain ⟨hm1, hm1b, hd1, hd1b, hy1⟩ := h1
  obtain ⟨hm2, hm2b, hd2, hd2b, hy2⟩ := h2
  rw [fmtDay, fmtDay] at h
  have hl := congrArg String.data h
  simp only at hl
  obtain ⟨hy, hrest⟩ :=
    List.append_inj hl (rfl : (pad4 d1.year).length = (pad4 d2.year).length)
  injection hrest with _ hrest2
  obtain ⟨hm, hrest3⟩ :=
    List.append_inj hrest2 (rfl : (pad2 d1.month).length = (pad2 d2.month).length)
  injection hrest3 with _ hd
  have ey := pad4_injOn (by omega) (by omega) hy
  have em := pad2_injOn (by omega) (by omega) hm
  have ed := pad2_injOn (by omega) (by omega) hd
  cases d1
  cases d2
  simp only at ey em ed
  simp [ey, em, ed]

/-- An unrecognized `group_by` falls through to the day format. -/
theorem periodKeyD_day (d : Date) : periodKeyD "day" d = fmtDay d := by
  rw [periodKeyD, if_neg (by decide), if_neg (by decide)]

/-- C8: any `group_by` outside `{week, month}` (in particular any value
outside `{day, week, month}`) is bucketed exactly as `day`, and at day
granularity two timestamps get the same period key iff they fall on the
same calendar day. -/
theorem period_key_day_spec :
    (∀ g : String, g ≠ "week" → g ≠ "month" →
      ∀ t : Timestamp, periodKey g t = periodKey "day" t) ∧
    (∀ t1 t2 : Timestamp, validDate t1.date → validDate t2.date →
      (periodKey "day" t1 = periodKey "day" t2 ↔ t1.date = t2.date)) := by
  constructor
  · intro g hw hm t
    rw [periodKey, periodKey, periodKeyD, if_neg hw, if_neg hm, periodKeyD_day]
  · intro t1 t2 h1 h2
    rw [periodKey, periodKey, periodKeyD_day, periodKeyD_day]
    exact ⟨fun h => fmtDay_injOn h1 h2 h, fun h => by rw [h]⟩

/-- Witness for C8: an unknown granularity string buckets a concrete
timestamp as a day, and two same-day timestamps with different times share
their day key while consecutive days do not. -/
theorem period_key_day_spec_witness :
    periodKey "total" ⟨⟨2024, 5, 7⟩, 10⟩ = periodKey "day" ⟨⟨2024, 5, 7⟩, 10⟩ ∧
    (periodKey "day" ⟨⟨2024, 5, 7⟩, 3600⟩ = periodKey "day" ⟨⟨2024, 5, 7⟩, 7200⟩ ↔
      (⟨2024, 5, 7⟩ : Date) = ⟨2024, 5, 7⟩) ∧
    (periodKey "day" ⟨⟨2024, 5, 7⟩, 3600⟩ = periodKey "day" ⟨⟨2024, 5, 8⟩, 3600⟩ ↔
      (⟨2024, 5, 7⟩ : Date) = ⟨2024, 5, 8⟩) :=
  ⟨period_key_day_spec.1 "total" (by decide) (by decide) _,
   period_key_day_spec.2 _ _ (by decide) (by decide),
   period_key_day_spec.2 _ _ (by decide) (by decide)⟩

end Erp
